import Mathlib

/-!
# CyberSentinel real-time location risk engine — shallow embedding

A shallow embedding, in Lean 4, of the real-time location-based risk engine of
the CyberSentinel repository, covering:

* `backend/app/services/realtime_location_service.py`
  (`RealTimeLocationDetector`, `MovementPatternAnalyzer`), and
* `backend/app/services/real_time_processor.py`
  (`RealTimeDataProcessor` aggregation helpers).

Modelling conventions:

* Python floats are modelled as rationals (`ℚ`); `int(x)` on a non-negative
  float is `⌊x⌋`; Python `round(x, k)` (display rounding only, never used in a
  control decision) is modelled as round-half-up to `k` decimals.
* `geopy.distance.geodesic` is an external library call; every definition that
  uses it is parametrised by a distance function `Dist` returning metres, so
  the theorems hold for the actual geodesic distance as an instance.
* Python `datetime` values are modelled by `DateTime`: the epoch-seconds value
  (used for subtraction) together with the `.hour` attribute.
* Python dicts used as insertion-ordered accumulators are modelled by
  association lists updated in place (`bumpKey`, `bumpArea`); Python's stable
  `sorted(..., reverse=True)` is modelled by Mathlib's stable `insertionSort`
  with the descending relation (a stable sort is uniquely determined by the
  key, so this agrees with timsort).
* `sklearn` DBSCAN clustering (`detect_location_clustering`) is an external
  ML library call and is passed in as an opaque boolean parameter.
* Collaborator lookups that the service awaits (crime density, nearby frauds,
  concurrent users, per-geofence incidents) are passed in as parameters;
  fallible ones are `Except String` values and the service's `try/except`
  handlers are modelled explicitly (`RiskOutcome`).
-/

namespace CyberSentinel

/-- Python `datetime`: epoch seconds (used for differences) plus the `.hour`
attribute (0–23). -/
structure DateTime where
  sec : ℚ
  hour : ℕ
deriving DecidableEq, Repr

/-- `LocationData` dataclass of `realtime_location_service.py`. -/
structure LocationData where
  userId : String
  latitude : ℚ
  longitude : ℚ
  timestamp : DateTime
  accuracy : ℚ
  deviceId : String
  appSource : String
  sessionId : String
  transactionId : Option String := none
deriving DecidableEq, Repr

instance : Inhabited LocationData :=
  ⟨{ userId := "", latitude := 0, longitude := 0, timestamp := ⟨0, 0⟩,
     accuracy := 0, deviceId := "", appSource := "", sessionId := "" }⟩

/-- Distance collaborator: `geopy.distance.geodesic(p, q).meters`. -/
def Dist : Type := ℚ × ℚ → ℚ × ℚ → ℚ

/-- Python `round(x, 1)` (round-half-up model; display only). -/
def roundTo1 (q : ℚ) : ℚ := (⌊10 * q + 1/2⌋ : ℚ) / 10

/-- Python `round(x, 2)` (round-half-up model; display only). -/
def roundTo2 (q : ℚ) : ℚ := (⌊100 * q + 1/2⌋ : ℚ) / 100

/-! ## History Store (`track_user_location`, lines 137–143)

```python
self.location_history[location_data.user_id].append(location_data)
if len(self.location_history[location_data.user_id]) > 100:
    self.location_history[location_data.user_id] = \
        self.location_history[location_data.user_id][-100:]
```
-/

/-- Python `l[-n:]`: the last `n` elements (the whole list when shorter). -/
def lastN (n : ℕ) (l : List LocationData) : List LocationData :=
  l.drop (l.length - n)

/-- One `record` step of the History Store: append the event, then keep only
the last 100 entries. -/
def trackRecord (hist : List LocationData) (e : LocationData) : List LocationData :=
  let l := hist ++ [e]
  if 100 < l.length then l.drop (l.length - 100) else l

/-! ## Geofence Monitor (`check_geofences`, lines 288–317) -/

/-- A configured geofence (`high_risk_geofences` entries). -/
structure Geofence where
  name : String
  centerLat : ℚ
  centerLng : ℚ
  radius : ℚ
  riskLevel : String
  alertThreshold : ℕ
deriving DecidableEq, Repr

/-- An incident record returned by the `get_geofence_incidents` collaborator. -/
structure GIncident where
  incidentId : String
  type : String
  time : String
deriving DecidableEq, Repr

/-- `GeofenceAlert` dataclass. -/
structure GeofenceAlert where
  alertId : String
  location : LocationData
  alertType : String
  riskLevel : String
  message : String
  nearbyIncidents : List GIncident
  predictionConfidence : ℚ
deriving DecidableEq, Repr

/-- The alert built for a violated geofence (body of the inner `if`). -/
def mkGeofenceAlert (now : ℤ) (loc : LocationData) (g : Geofence)
    (ni : List GIncident) : GeofenceAlert :=
  { alertId := "geo_" ++ toString now ++ "_" ++ loc.userId,
    location := loc,
    alertType := "geofence_violation",
    riskLevel := g.riskLevel,
    message := "User entered high-risk area: " ++ g.name ++ " with "
      ++ toString ni.length ++ " recent incidents",
    nearbyIncidents := ni,
    predictionConfidence := 85/100 }

/-- `check_geofences`: walk the configured fences in order; for each fence
within whose radius the event lies, look up its recent incidents and emit an
alert when the incident count reaches the fence's `alert_threshold`.
`incOf` is the `get_geofence_incidents` collaborator, `now` the wall clock
used only for the alert id. -/
def checkGeofences (dist : Dist) (incOf : Geofence → List GIncident) (now : ℤ)
    (loc : LocationData) : List Geofence → List GeofenceAlert
  | [] => []
  | g :: rest =>
    (if dist (loc.latitude, loc.longitude) (g.centerLat, g.centerLng) ≤ g.radius then
      let ni := incOf g
      if g.alertThreshold ≤ ni.length then [mkGeofenceAlert now loc g ni] else []
    else [])
    ++ checkGeofences dist incOf now loc rest

/-- The configured `high_risk_geofences` list. -/
def highRiskGeofences : List Geofence :=
  [ ⟨"Connaught Place ATM Cluster", 286315/10000, 772167/10000, 500, "high", 3⟩,
    ⟨"Karol Bagh Banking District", 286519/10000, 771909/10000, 800, "medium", 5⟩,
    ⟨"Cyber City Gurgaon", 284950/10000, 770890/10000, 1000, "high", 2⟩,
    ⟨"Nehru Place Tech Hub", 285506/10000, 772506/10000, 600, "very_high", 1⟩ ]

/-! ## Risk Scorer (`analyze_location_risk`, lines 217–286) -/

/-- A nearby-fraud record returned by the `get_nearby_recent_frauds`
collaborator. -/
structure NearbyFraud where
  incidentId : String
  type : String
  distance : ℚ
deriving DecidableEq, Repr

/-- `detect_impossible_travel`: compare the current event against the
next-to-last history entry (the history already contains the current event);
non-positive elapsed time counts as impossible, otherwise the required speed
must exceed 200 km/h. -/
def detectImpossibleTravel (dist : Dist) (hist : List LocationData)
    (loc : LocationData) : Bool :=
  if hist.length < 2 then false
  else
    match hist.dropLast.getLast? with
    | none => false
    | some prev =>
      let km := dist (prev.latitude, prev.longitude) (loc.latitude, loc.longitude) / 1000
      let hrs := (loc.timestamp.sec - prev.timestamp.sec) / 3600
      if hrs ≤ 0 then true else decide (200 < km / hrs)

/-- The level thresholds applied to the accumulated risk score:
`≥70` critical, `≥50` high, `≥30` medium, else low. -/
def riskLevelOf (score : ℚ) : String :=
  if 70 ≤ score then "critical"
  else if 50 ≤ score then "high"
  else if 30 ≤ score then "medium"
  else "low"

/-- The successful result of `analyze_location_risk` (the dict built at the
end of the `try` body; the nested `location_analysis` flags are inlined). -/
structure RiskAnalysis where
  riskScore : ℚ
  riskLevel : String
  riskFactors : List String
  crimeDensity : ℚ
  nearbyFrauds : ℕ
  isAtmLocation : Bool
  isBankingDistrict : Bool
  isTechHub : Bool
deriving DecidableEq, Repr

/-- `is_atm_location`: within `radius` metres of some ATM fraud hotspot. -/
def isAtmLocationB (dist : Dist) (hotspotsCfg : List (ℚ × ℚ)) (radius : ℚ)
    (loc : LocationData) : Bool :=
  hotspotsCfg.any fun h => dist (loc.latitude, loc.longitude) h ≤ radius

/-- The raw (uncapped) additive risk score of `analyze_location_risk`. -/
def riskRaw (dist : Dist) (hist : List LocationData) (loc : LocationData)
    (crimeDensity : ℚ) (nearbyFrauds : List NearbyFraud)
    (concurrentUsers : List String) : ℚ :=
  (if 7/10 < crimeDensity then 30 else 0)
  + (if 22 ≤ loc.timestamp.hour ∨ loc.timestamp.hour ≤ 5 then 20 else 0)
  + (if 100 < loc.accuracy then 15 else 0)
  + (if detectImpossibleTravel dist hist loc then 40 else 0)
  + (if 2 < nearbyFrauds.length then (nearbyFrauds.length : ℚ) * 10 else 0)
  + (if 5 < concurrentUsers.length then 25 else 0)

/-- The contributing-factor strings appended along the way. -/
def riskFactorsOf (dist : Dist) (hist : List LocationData) (loc : LocationData)
    (crimeDensity : ℚ) (nearbyFrauds : List NearbyFraud)
    (concurrentUsers : List String) : List String :=
  (if 7/10 < crimeDensity then ["High crime density area"] else [])
  ++ (if 22 ≤ loc.timestamp.hour ∨ loc.timestamp.hour ≤ 5 then ["Night time activity"] else [])
  ++ (if 100 < loc.accuracy then ["Poor location accuracy"] else [])
  ++ (if detectImpossibleTravel dist hist loc then ["Impossible travel pattern detected"] else [])
  ++ (if 2 < nearbyFrauds.length then
        [toString nearbyFrauds.length ++ " recent frauds within 1km"] else [])
  ++ (if 5 < concurrentUsers.length then ["Multiple users at exact same location"] else [])

/-- `analyze_location_risk`, successful path: the additive model over the
six signals, the level thresholds on the accumulated score, and the returned
score capped at 100.  `atmCfg`, `bankCfg`, `techCfg` are the static hotspot /
district circle configurations used by the `location_analysis` flags. -/
def analyzeLocationRiskCore (dist : Dist) (atmCfg : List (ℚ × ℚ))
    (bankCfg techCfg : List (ℚ × ℚ × ℚ)) (hist : List LocationData)
    (loc : LocationData) (crimeDensity : ℚ) (nearbyFrauds : List NearbyFraud)
    (concurrentUsers : List String) : RiskAnalysis :=
  let raw := riskRaw dist hist loc crimeDensity nearbyFrauds concurrentUsers
  { riskScore := min raw 100,
    riskLevel := riskLevelOf raw,
    riskFactors := riskFactorsOf dist hist loc crimeDensity nearbyFrauds concurrentUsers,
    crimeDensity := crimeDensity,
    nearbyFrauds := nearbyFrauds.length,
    isAtmLocation := isAtmLocationB dist atmCfg 50 loc,
    isBankingDistrict :=
      bankCfg.any fun d => dist (loc.latitude, loc.longitude) (d.1, d.2.1) ≤ d.2.2,
    isTechHub :=
      techCfg.any fun d => dist (loc.latitude, loc.longitude) (d.1, d.2.1) ≤ d.2.2 }

/-- Outcome of `analyze_location_risk` including its `except` handler: either
the complete assessment, or the degraded dict
`{'risk_score': 0, 'risk_level': 'unknown', 'error': str(e)}`. -/
inductive RiskOutcome where
  | ok (r : RiskAnalysis)
  | degraded (riskScore : ℚ) (riskLevel : String) (error : String)
deriving DecidableEq, Repr

/-- The `risk_score` entry of the outcome dict. -/
def RiskOutcome.riskScore : RiskOutcome → ℚ
  | .ok r => r.riskScore
  | .degraded s _ _ => s

/-- The `risk_level` entry of the outcome dict. -/
def RiskOutcome.riskLevel : RiskOutcome → String
  | .ok r => r.riskLevel
  | .degraded _ l _ => l

/-- The `risk_factors` entry (the degraded dict has none; it is only read on
the high/critical alert paths, which the `unknown` level never takes). -/
def RiskOutcome.riskFactors : RiskOutcome → List String
  | .ok r => r.riskFactors
  | .degraded _ _ _ => []

/-- `risk_analysis.get('nearby_frauds', 0)` as used by
`generate_recommendations`. -/
def RiskOutcome.nearbyFraudsCount : RiskOutcome → ℕ
  | .ok r => r.nearbyFrauds
  | .degraded _ _ _ => 0

/-- `analyze_location_risk` with its `try/except`: the collaborator lookups
(crime density, nearby frauds, concurrent users) may fail; the first failure
aborts the body and the handler returns the degraded assessment. -/
def analyzeLocationRisk (dist : Dist) (atmCfg : List (ℚ × ℚ))
    (bankCfg techCfg : List (ℚ × ℚ × ℚ)) (hist : List LocationData)
    (loc : LocationData) (crimeDensity : Except String ℚ)
    (nearbyFrauds : Except String (List NearbyFraud))
    (concurrentUsers : Except String (List String)) : RiskOutcome :=
  match crimeDensity with
  | .error m => .degraded 0 "unknown" m
  | .ok d =>
    match nearbyFrauds with
    | .error m => .degraded 0 "unknown" m
    | .ok nf =>
      match concurrentUsers with
      | .error m => .degraded 0 "unknown" m
      | .ok cu => .ok (analyzeLocationRiskCore dist atmCfg bankCfg techCfg hist loc d nf cu)

/-! ## Movement Pattern Analyzer (`analyze_movement_patterns`, lines 323–403,
and helpers `detect_circular_movement`, `detect_atm_loitering`) -/

/-- The consecutive pairs of a list (the loop `for i in range(1, len)`). -/
def stepPairs : List LocationData → List (LocationData × LocationData)
  | a :: b :: rest => (a, b) :: stepPairs (b :: rest)
  | _ => []

/-- Per-step speeds in m/s: distance / elapsed seconds, keeping only the
steps with positive elapsed time. -/
def speedsOf (dist : Dist) (l : List LocationData) : List ℚ :=
  (stepPairs l).filterMap fun p =>
    let d := dist (p.1.latitude, p.1.longitude) (p.2.latitude, p.2.longitude)
    let dt := p.2.timestamp.sec - p.1.timestamp.sec
    if 0 < dt then some (d / dt) else none

/-- Per-step distances, kept under the same positive-elapsed-time guard. -/
def distancesOf (dist : Dist) (l : List LocationData) : List ℚ :=
  (stepPairs l).filterMap fun p =>
    let d := dist (p.1.latitude, p.1.longitude) (p.2.latitude, p.2.longitude)
    let dt := p.2.timestamp.sec - p.1.timestamp.sec
    if 0 < dt then some d else none

/-- `np.mean`. -/
def listMean (l : List ℚ) : ℚ := l.sum / l.length

/-- `np.var` (population variance). -/
def listVar (l : List ℚ) : ℚ :=
  ((l.map fun x => (x - listMean l) ^ 2).sum) / l.length

/-- `max(speeds)` (on the non-empty path). -/
def maxSpeedOf (dist : Dist) (l : List LocationData) : ℚ :=
  ((speedsOf dist l).maximum).getD 0

/-- Cumulative great-circle path length over consecutive points, in metres. -/
def pathLength (dist : Dist) : List LocationData → ℚ
  | a :: b :: rest =>
    dist (a.latitude, a.longitude) (b.latitude, b.longitude)
      + pathLength dist (b :: rest)
  | _ => 0

/-- `detect_circular_movement`: fewer than 4 points never trigger; otherwise
every point must lie within 0.5 km of the mean-coordinate centroid and the
cumulative movement must exceed 500 m. -/
def detectCircularMovement (dist : Dist) (locs : List LocationData) : Bool :=
  if locs.length < 4 then false
  else
    let centerLat := (locs.map (·.latitude)).sum / locs.length
    let centerLng := (locs.map (·.longitude)).sum / locs.length
    if locs.all fun p =>
        dist (p.latitude, p.longitude) (centerLat, centerLng) / 1000 ≤ 1/2 then
      decide (500 < pathLength dist locs)
    else false

/-- `detect_atm_loitering`: among the supplied points, those within 100 m of
an ATM hotspot; loitering iff at least 3 such readings span more than
600 seconds. -/
def detectAtmLoitering (dist : Dist) (atmCfg : List (ℚ × ℚ))
    (locs : List LocationData) : Bool :=
  if locs.length < 3 then false
  else
    let atmLocs := locs.filter fun l => isAtmLocationB dist atmCfg 100 l
    if 3 ≤ atmLocs.length then
      decide (600 < (atmLocs.getLast?.getD default).timestamp.sec
        - (atmLocs.head?.getD default).timestamp.sec)
    else false

/-- `movement_stats` dict (display values; `round(x, 2)` modelled as
round-half-up). -/
structure MovementStats where
  avgSpeedMs : ℚ
  avgSpeedKmh : ℚ
  maxSpeedMs : ℚ
  maxSpeedKmh : ℚ
  totalDistanceM : ℚ
  dataPoints : ℕ
deriving DecidableEq, Repr

/-- The dict returned by `analyze_movement_patterns`: `status` is present only
on the two early-return branches; the full branch carries the pattern, the
capped risk score, anomalies and movement statistics. -/
structure MovementAnalysis where
  status : Option String
  patternType : String
  riskScore : ℚ
  anomalies : List String
  movementStats : Option MovementStats
deriving DecidableEq, Repr

/-- Unrealistic-speed trigger: max per-step speed above 41.67 m/s. -/
def speedFlag (dist : Dist) (hist : List LocationData) : Bool :=
  decide (4167/100 < maxSpeedOf dist hist)

/-- Erratic-movement trigger: more than 2 speeds with variance above 100. -/
def erraticFlag (dist : Dist) (hist : List LocationData) : Bool :=
  decide (2 < (speedsOf dist hist).length) && decide (100 < listVar (speedsOf dist hist))

/-- Circular-movement trigger on the last 10 history points. -/
def circularFlag (dist : Dist) (hist : List LocationData) : Bool :=
  detectCircularMovement dist (lastN 10 hist)

/-- ATM-loitering trigger on the last 5 history points. -/
def loiterFlag (dist : Dist) (atmCfg : List (ℚ × ℚ)) (hist : List LocationData) : Bool :=
  detectAtmLoitering dist atmCfg (lastN 5 hist)

/-- `analyze_movement_patterns` on the subject's current history (which
already contains the event being processed). -/
def analyzeMovementPatterns (dist : Dist) (atmCfg : List (ℚ × ℚ))
    (hist : List LocationData) : MovementAnalysis :=
  if hist.length < 3 then
    { status := some "insufficient_data", patternType := "unknown",
      riskScore := 0, anomalies := [], movementStats := none }
  else
    let speeds := speedsOf dist hist
    if speeds.isEmpty then
      { status := some "no_movement", patternType := "stationary",
        riskScore := 0, anomalies := [], movementStats := none }
    else
      let f1 := speedFlag dist hist
      let f2 := erraticFlag dist hist
      let f3 := circularFlag dist hist
      let f4 := loiterFlag dist atmCfg hist
      let p1 := if f1 then "suspicious" else "normal"
      let p2 := if f2 then "suspicious" else p1
      let p3 := if f3 then "high_risk" else p2
      let p4 := if f4 then "high_risk" else p3
      let raw : ℚ := (if f1 then 40 else 0) + (if f2 then 20 else 0)
        + (if f3 then 30 else 0) + (if f4 then 35 else 0)
      let avg := listMean speeds
      let mx := maxSpeedOf dist hist
      { status := none,
        patternType := p4,
        riskScore := min raw 100,
        anomalies :=
          (if f1 then ["Unrealistic travel speed detected"] else [])
          ++ (if f2 then ["Erratic movement pattern"] else [])
          ++ (if f3 then ["Circular movement pattern detected"] else [])
          ++ (if f4 then ["Loitering near ATM detected"] else []),
        movementStats := some
          { avgSpeedMs := roundTo2 avg, avgSpeedKmh := roundTo2 (avg * 36/10),
            maxSpeedMs := roundTo2 mx, maxSpeedKmh := roundTo2 (mx * 36/10),
            totalDistanceM := roundTo2 (distancesOf dist hist).sum,
            dataPoints := hist.length } }

/-! ## `MovementPatternAnalyzer` (lines 686–790) -/

/-- `MovementPattern` dataclass. -/
structure MovementPatternRec where
  userId : String
  locations : List LocationData
  patternType : String
  riskScore : ℚ
  anomalyIndicators : List String
deriving DecidableEq, Repr

/-- `detect_velocity_anomalies`: extreme maximum speed or high variance over
the positive-elapsed-time step speeds. -/
def detectVelocityAnomalies (dist : Dist) (locs : List LocationData) : Bool :=
  if locs.length < 3 then false
  else
    let velocities := speedsOf dist locs
    if velocities.isEmpty then false
    else
      let mx := (velocities.maximum).getD 0
      let v := if 1 < velocities.length then listVar velocities else 0
      decide (50 < mx) || decide (500 < v)

/-- `MovementPatternAnalyzer.analyze_user_pattern`.  `clusterDetect` is the
sklearn-DBSCAN-backed `detect_location_clustering` (external ML library),
passed in as a collaborator on the points' coordinates. -/
def analyzeUserPattern (dist : Dist) (clusterDetect : List (ℚ × ℚ) → Bool)
    (userId : String) (locs : List LocationData) : MovementPatternRec :=
  if locs.length < 5 then
    { userId := userId, locations := locs, patternType := "insufficient_data",
      riskScore := 0, anomalyIndicators := [] }
  else
    let night := locs.filter fun l => 22 ≤ l.timestamp.hour ∨ l.timestamp.hour ≤ 5
    let a1 := decide ((locs.length : ℚ) * 3/10 < night.length)
    let a2 := clusterDetect (locs.map fun l => (l.latitude, l.longitude))
    let a3 := detectVelocityAnomalies dist locs
    let raw : ℚ := (if a1 then 25 else 0) + (if a2 then 20 else 0) + (if a3 then 30 else 0)
    { userId := userId, locations := locs,
      patternType :=
        if 60 ≤ raw then "high_risk" else if 30 ≤ raw then "suspicious" else "normal",
      riskScore := min raw 100,
      anomalyIndicators :=
        (if a1 then ["High night-time activity"] else [])
        ++ (if a2 then ["Repeated visits to same location"] else [])
        ++ (if a3 then ["Unusual travel speeds detected"] else []) }

/-! ## Proximity alerts, real-time alerts, recommendations, and
`track_user_location` -/

/-- An `atm_fraud_hotspots` entry. -/
structure AtmHotspot where
  lat : ℚ
  lng : ℚ
  bank : String
  recentIncidents : ℕ
deriving DecidableEq, Repr

/-- The configured `atm_fraud_hotspots`. -/
def atmFraudHotspots : List AtmHotspot :=
  [ ⟨286139/10000, 772090/10000, "HDFC", 5⟩,
    ⟨285244/10000, 771855/10000, "SBI", 3⟩,
    ⟨284595/10000, 770266/10000, "ICICI", 7⟩,
    ⟨287041/10000, 771025/10000, "Axis", 4⟩ ]

/-- A `check_fraud_proximity` alert dict. -/
structure ProxAlert where
  alertType : String
  riskLevel : String
  message : String
  distanceMeters : ℚ
  hotspot : AtmHotspot
  recommendation : String
deriving DecidableEq, Repr

/-- `check_fraud_proximity`: one alert per ATM fraud hotspot within 200 m. -/
def checkFraudProximity (dist : Dist) (hotspots : List AtmHotspot)
    (loc : LocationData) : List ProxAlert :=
  hotspots.filterMap fun h =>
    let d := dist (loc.latitude, loc.longitude) (h.lat, h.lng)
    if d ≤ 200 then
      some { alertType := "fraud_proximity",
             riskLevel := if 5 ≤ h.recentIncidents then "high" else "medium",
             message := "Within 200m of " ++ h.bank ++ " ATM with "
               ++ toString h.recentIncidents ++ " recent fraud incidents",
             distanceMeters := roundTo1 d,
             hotspot := h,
             recommendation := "Exercise extreme caution, verify transaction authenticity" }
    else none

/-- A `generate_location_alerts` alert dict. -/
structure LocationAlert where
  alertId : String
  type : String
  message : String
  lat : ℚ
  lng : ℚ
  riskFactors : List String
  immediateAction : String
  priority : ℕ
deriving DecidableEq, Repr

/-- `generate_location_alerts`: one priority-1 alert for `critical`, one
priority-2 alert for `high`, nothing otherwise. -/
def generateLocationAlerts (now : ℤ) (loc : LocationData)
    (risk : RiskOutcome) : List LocationAlert :=
  if risk.riskLevel = "critical" then
    [ { alertId := "critical_" ++ toString now ++ "_" ++ loc.userId,
        type := "critical_location_risk",
        message := "CRITICAL: User at high-risk location with "
          ++ toString risk.riskScore ++ "% risk score",
        lat := loc.latitude, lng := loc.longitude,
        riskFactors := risk.riskFactors,
        immediateAction := "Deploy nearest patrol unit, monitor transactions",
        priority := 1 } ]
  else if risk.riskLevel = "high" then
    [ { alertId := "high_" ++ toString now ++ "_" ++ loc.userId,
        type := "high_location_risk",
        message := "HIGH RISK: User location requires monitoring ("
          ++ toString risk.riskScore ++ "% risk)",
        lat := loc.latitude, lng := loc.longitude,
        riskFactors := risk.riskFactors,
        immediateAction := "Increase monitoring, prepare response team",
        priority := 2 } ]
  else []

/-- The heterogeneous `alerts` list accumulated by `track_user_location`. -/
inductive RTAlert where
  | location (a : LocationAlert)
  | geofence (a : GeofenceAlert)
  | proximity (a : ProxAlert)
deriving DecidableEq, Repr

/-- `generate_recommendations`. -/
def generateRecommendations (risk : RiskOutcome) (alerts : List RTAlert) :
    List String :=
  (if risk.riskLevel = "critical" ∨ risk.riskLevel = "high" then
    [ "Deploy nearest patrol unit to location",
      "Monitor all financial transactions in area",
      "Alert nearby ATMs and banks",
      "Increase CCTV surveillance" ]
  else [])
  ++ (if 0 < alerts.length then
    [ "Initiate rapid response protocol",
      "Coordinate with local police station",
      "Send safety alert to users in area" ]
  else [])
  ++ (if 3 < risk.nearbyFraudsCount then
    ["Establish temporary security checkpoint"] else [])

/-- The aggregate dict returned by `track_user_location`. -/
structure TrackResult where
  locationId : String
  timestamp : DateTime
  riskAnalysis : RiskOutcome
  movementPatterns : MovementAnalysis
  geofenceStatus : List GeofenceAlert
  proximityAlerts : List ProxAlert
  realTimeAlerts : List RTAlert
  recommendations : List String
deriving DecidableEq, Repr

/-- `track_user_location`: record the event into the subject's history (FIFO
cap 100), then run risk scoring, geofence checks, movement analysis and
proximity checks on the updated history, combine the alerts, and return the
complete aggregate together with the new history.  The fallible collaborator
lookups of the risk scorer are handled inside `analyzeLocationRisk`; every
other sub-component catches its own collaborator failures locally, so the
caller always receives the full aggregate. -/
def trackUserLocation (dist : Dist) (incOf : Geofence → List GIncident)
    (now : ℤ) (fences : List Geofence) (atmCfg : List (ℚ × ℚ))
    (bankCfg techCfg : List (ℚ × ℚ × ℚ)) (atmHotspots : List AtmHotspot)
    (crimeDensity : Except String ℚ)
    (nearbyFrauds : Except String (List NearbyFraud))
    (concurrentUsers : Except String (List String))
    (hist : List LocationData) (loc : LocationData) :
    List LocationData × TrackResult :=
  let hist' := trackRecord hist loc
  let risk := analyzeLocationRisk dist atmCfg bankCfg techCfg hist' loc
    crimeDensity nearbyFrauds concurrentUsers
  let geo := checkGeofences dist incOf now loc fences
  let mv := analyzeMovementPatterns dist atmCfg hist'
  let prox := checkFraudProximity dist atmHotspots loc
  let locAlerts :=
    if risk.riskLevel = "high" ∨ risk.riskLevel = "critical" then
      generateLocationAlerts now loc risk
    else []
  let alerts := locAlerts.map RTAlert.location ++ geo.map RTAlert.geofence
    ++ prox.map RTAlert.proximity
  (hist',
   { locationId := "loc_" ++ toString now ++ "_" ++ loc.userId,
     timestamp := loc.timestamp,
     riskAnalysis := risk,
     movementPatterns := mv,
     geofenceStatus := geo,
     proximityAlerts := prox,
     realTimeAlerts := alerts,
     recommendations := generateRecommendations risk alerts })

/-! ## Real-Time Aggregator (`real_time_processor.py`) -/

/-- The `location` dict of an aggregator incident. -/
structure IncLocation where
  city : String
  area : String
  latitude : ℚ
  longitude : ℚ
deriving DecidableEq, Repr

/-- An aggregator incident event. -/
structure Incident where
  id : String
  timestamp : ℚ
  type : String
  amount : ℚ
  location : IncLocation
deriving DecidableEq, Repr

/-- Bump a key's count in an insertion-ordered association list (Python dict
counting). -/
def bumpKey (k : String) : List (String × ℕ) → List (String × ℕ)
  | [] => [(k, 1)]
  | (k', n) :: rest =>
    if k' = k then (k', n + 1) :: rest else (k', n) :: bumpKey k rest

/-- `_predict_hotspots` grouping: incident counts per city, in first-seen
order. -/
def cityCounts (incs : List Incident) : List (String × ℕ) :=
  incs.foldl (fun acc i => bumpKey i.location.city acc) []

/-- `_predict_trends` grouping: incident counts per fraud type. -/
def typeCounts (incs : List Incident) : List (String × ℕ) :=
  incs.foldl (fun acc i => bumpKey i.type acc) []

/-- A hotspot prediction entry. -/
structure HotspotPred where
  city : String
  predictedIncidents : ℤ
  confidence : ℚ
  riskLevel : String
deriving DecidableEq, Repr

/-- The hotspot entry built for a city with `count ≥ 2` incidents:
`predicted_incidents = int(count * 1.5)` (Python `int` truncation, i.e. floor
on these non-negative values), `confidence = min(0.9, count * 0.2)`, and the
risk level compares the un-truncated `count * 1.5` against 3. -/
def hotspotOf (city : String) (count : ℕ) : HotspotPred :=
  let predicted : ℚ := (count : ℚ) * (3/2)
  { city := city,
    predictedIncidents := ⌊predicted⌋,
    confidence := min (9/10) ((count : ℚ) * (2/10)),
    riskLevel := if 3 < predicted then "high" else "medium" }

/-- `_predict_hotspots`: cities with at least 2 incidents in the window,
sorted by predicted incidents descending (Python's stable `sorted` with
`reverse=True`, modelled by the stable insertion sort). -/
def predictHotspots (incs : List Incident) : List HotspotPred :=
  (((cityCounts incs).filter fun p => 2 ≤ p.2).map fun p => hotspotOf p.1 p.2).insertionSort
    fun a b => b.predictedIncidents ≤ a.predictedIncidents

/-- A `_predict_trends` entry value. -/
structure TrendStat where
  percentage : ℚ
  growthRate : ℚ
  status : String
deriving DecidableEq, Repr

/-- `_predict_trends`: fraud types above a 20% share of the window. -/
def predictTrends (incs : List Incident) : List (String × TrendStat) :=
  (typeCounts incs).filterMap fun p =>
    let pct : ℚ := ((p.2 : ℚ) / incs.length) * 100
    if 20 < pct then
      some (p.1, { percentage := pct, growthRate := pct * (12/10),
                   status := if 25 < pct then "increasing" else "stable" })
    else none

/-- Per-area aggregate of `_identify_risk_areas`. -/
structure AreaAgg where
  incidents : ℕ
  totalAmount : ℚ
  location : IncLocation
deriving DecidableEq, Repr

/-- Fold one incident into the insertion-ordered per-area aggregates
(`area_risks` dict): the key is `city-area`; the stored location is the first
incident's. -/
def bumpArea (i : Incident) : List (String × AreaAgg) → List (String × AreaAgg)
  | [] => [(i.location.city ++ "-" ++ i.location.area, ⟨1, i.amount, i.location⟩)]
  | (k, a) :: rest =>
    if k = i.location.city ++ "-" ++ i.location.area then
      (k, ⟨a.incidents + 1, a.totalAmount + i.amount, a.location⟩) :: rest
    else (k, a) :: bumpArea i rest

/-- The `area_risks` aggregates for a window of incidents. -/
def areaAggs (incs : List Incident) : List (String × AreaAgg) :=
  incs.foldl (fun acc i => bumpArea i acc) []

/-- A risk-area ranking entry. -/
structure RiskArea where
  area : String
  riskScore : ℚ
  incidents : ℕ
  totalAmount : ℚ
  location : IncLocation
deriving DecidableEq, Repr

/-- The raw composite score of an area:
`incidents * 0.6 + total_amount / 1_000_000 * 0.4`. -/
def areaRawScore (a : AreaAgg) : ℚ :=
  (a.incidents : ℚ) * (6/10) + a.totalAmount / 1000000 * (4/10)

/-- `_identify_risk_areas`: areas whose raw composite exceeds 1.0, stored with
`risk_score = min(raw, 1.0)`, sorted by stored score descending. -/
def identifyRiskAreas (incs : List Incident) : List RiskArea :=
  ((areaAggs incs).filterMap fun p =>
    if 1 < areaRawScore p.2 then
      some { area := p.1, riskScore := min (areaRawScore p.2) 1,
             incidents := p.2.incidents, totalAmount := p.2.totalAmount,
             location := p.2.location }
    else none).insertionSort fun a b => b.riskScore ≤ a.riskScore

/-- The shared `prediction_cache` together with `last_update`. -/
structure PredictionCache where
  hotspots : List HotspotPred
  trends : List (String × TrendStat)
  riskAreas : List RiskArea
  lastUpdate : ℚ
deriving DecidableEq, Repr

/-- `_get_recent_incidents`: the queue contents filtered to the last hour. -/
def recentIncidents (queued : List Incident) (now : ℚ) : List Incident :=
  queued.filter fun i => now - 3600 < i.timestamp

/-- `_update_predictions`: when the recent window is non-empty, recompute the
three prediction fields from it and set `last_update` to the cycle time;
when it is empty, leave the cache untouched. -/
def updatePredictions (cache : PredictionCache) (recent : List Incident)
    (now : ℚ) : PredictionCache :=
  if recent.isEmpty then cache
  else
    { cache with
      hotspots := predictHotspots recent,
      trends := predictTrends recent,
      riskAreas := identifyRiskAreas recent,
      lastUpdate := now }

/-- One aggregation cycle's cache effect: filter the queue to the last-hour
window and apply `_update_predictions`. -/
def processCycle (cache : PredictionCache) (queued : List Incident)
    (now : ℚ) : PredictionCache :=
  updatePredictions cache (recentIncidents queued now) now

/-! ## Sample inputs used by the concrete witnesses -/

/-- Degenerate distance function (every pair at distance 0). -/
def zeroDist : Dist := fun _ _ => 0

/-- Scaled taxicab distance in metres: 1000 m per coordinate unit. -/
def taxiDist : Dist := fun p q => 1000 * (|p.1 - q.1| + |p.2 - q.2|)

/-- A sample daytime location event. -/
def sampleLoc : LocationData :=
  { userId := "u1", latitude := 0, longitude := 0, timestamp := ⟨0, 12⟩,
    accuracy := 10, deviceId := "dev", appSource := "mobile_banking",
    sessionId := "sess" }

/-! ## Shared helper lemmas -/

/-- The raw additive risk score is a sum of non-negative contributions. -/
lemma riskRaw_nonneg (dist : Dist) (hist : List LocationData)
    (loc : LocationData) (d : ℚ) (nf : List NearbyFraud) (cu : List String) :
    0 ≤ riskRaw dist hist loc d nf cu := by
  unfold riskRaw
  split_ifs <;> positivity

/-- Because every threshold is below the cap, the level computed from the raw
(uncapped) score agrees with the thresholds applied to the capped score. -/
lemma riskLevelOf_min_100 (raw : ℚ) :
    riskLevelOf raw = riskLevelOf (min raw 100) := by
  rcases le_total raw 100 with h | h
  · rw [min_eq_left h]
  · rw [min_eq_right h]
    unfold riskLevelOf
    split_ifs <;> first | rfl | linarith

/-- Score bounds for the successful risk analysis. -/
lemma riskCore_score_bounds (dist : Dist) (atmCfg : List (ℚ × ℚ))
    (bankCfg techCfg : List (ℚ × ℚ × ℚ)) (hist : List LocationData)
    (loc : LocationData) (d : ℚ) (nf : List NearbyFraud) (cu : List String) :
    0 ≤ (analyzeLocationRiskCore dist atmCfg bankCfg techCfg hist loc d nf cu).riskScore
      ∧ (analyzeLocationRiskCore dist atmCfg bankCfg techCfg hist loc d nf cu).riskScore ≤ 100 := by
  refine ⟨le_min (riskRaw_nonneg dist hist loc d nf cu) (by norm_num), min_le_right _ _⟩

/-! ## Claim theorems -/

/-- **C1.** For every `LocationEvent` scored by `analyze_location_risk`, the
returned `risk_score` lies in `[0, 100]`, and the returned `risk_level` is
exactly the fixed thresholds (`≥70` critical, `≥50` high, `≥30` medium, else
low) applied to the capped total. -/
theorem risk_score_bounded_level_thresholds (dist : Dist)
    (atmCfg : List (ℚ × ℚ)) (bankCfg techCfg : List (ℚ × ℚ × ℚ))
    (hist : List LocationData) (loc : LocationData) (d : ℚ)
    (nf : List NearbyFraud) (cu : List String) :
    0 ≤ (analyzeLocationRiskCore dist atmCfg bankCfg techCfg hist loc d nf cu).riskScore
    ∧ (analyzeLocationRiskCore dist atmCfg bankCfg techCfg hist loc d nf cu).riskScore ≤ 100
    ∧ (analyzeLocationRiskCore dist atmCfg bankCfg techCfg hist loc d nf cu).riskLevel
      = riskLevelOf
        (analyzeLocationRiskCore dist atmCfg bankCfg techCfg hist loc d nf cu).riskScore := by
  obtain ⟨h0, h1⟩ := riskCore_score_bounds dist atmCfg bankCfg techCfg hist loc d nf cu
  refine ⟨h0, h1, ?_⟩
  show riskLevelOf _ = riskLevelOf (min _ 100)
  exact riskLevelOf_min_100 _

/-- **C2.** The Geofence Monitor reports a violation for a configured fence
iff the distance from the event to the fence centre is at most the fence
radius and the fence's incident count reaches its alert threshold; fences are
walked in configuration order with no early exit, so the result is exactly
one alert per matching fence, in configuration order. -/
theorem geofence_violation_iff_in_range_and_threshold (dist : Dist)
    (incOf : Geofence → List GIncident) (now : ℤ) (loc : LocationData)
    (fences : List Geofence) :
    checkGeofences dist incOf now loc fences
      = (fences.filter fun g =>
          decide (dist (loc.latitude, loc.longitude) (g.centerLat, g.centerLng) ≤ g.radius)
            && decide (g.alertThreshold ≤ (incOf g).length)).map
          fun g => mkGeofenceAlert now loc g (incOf g) := by
  induction fences with
  | nil => rfl
  | cons g rest ih =>
    by_cases h1 : dist (loc.latitude, loc.longitude) (g.centerLat, g.centerLng) ≤ g.radius
      <;> by_cases h2 : g.alertThreshold ≤ (incOf g).length
      <;> simp [checkGeofences, h1, h2, ih]

/-- **C9.** Two runs of the Risk Scorer on the same event, the same subject
history and identical collaborator responses (crime density, nearby frauds,
concurrent users) return identical assessments: same score, same level, same
contributing factors. -/
theorem risk_scorer_deterministic (dist : Dist) (atmCfg : List (ℚ × ℚ))
    (bankCfg techCfg : List (ℚ × ℚ × ℚ)) (hist : List LocationData)
    (loc : LocationData) (d d' : ℚ) (nf nf' : List NearbyFraud)
    (cu cu' : List String) (hd : d = d') (hn : nf = nf') (hc : cu = cu') :
    analyzeLocationRiskCore dist atmCfg bankCfg techCfg hist loc d nf cu
      = analyzeLocationRiskCore dist atmCfg bankCfg techCfg hist loc d' nf' cu'
    ∧ (analyzeLocationRiskCore dist atmCfg bankCfg techCfg hist loc d nf cu).riskScore
      = (analyzeLocationRiskCore dist atmCfg bankCfg techCfg hist loc d' nf' cu').riskScore
    ∧ (analyzeLocationRiskCore dist atmCfg bankCfg techCfg hist loc d nf cu).riskLevel
      = (analyzeLocationRiskCore dist atmCfg bankCfg techCfg hist loc d' nf' cu').riskLevel
    ∧ (analyzeLocationRiskCore dist atmCfg bankCfg techCfg hist loc d nf cu).riskFactors
      = (analyzeLocationRiskCore dist atmCfg bankCfg techCfg hist loc d' nf' cu').riskFactors := by
  subst hd hn hc
  exact ⟨rfl, rfl, rfl, rfl⟩

/-- Witness for C9 at a concrete event, history and collaborator bundle. -/
theorem risk_scorer_deterministic_witness :
    analyzeLocationRiskCore zeroDist [] [] [] [] sampleLoc (1/2) [] []
      = analyzeLocationRiskCore zeroDist [] [] [] [] sampleLoc (1/2) [] []
    ∧ (analyzeLocationRiskCore zeroDist [] [] [] [] sampleLoc (1/2) [] []).riskScore
      = (analyzeLocationRiskCore zeroDist [] [] [] [] sampleLoc (1/2) [] []).riskScore
    ∧ (analyzeLocationRiskCore zeroDist [] [] [] [] sampleLoc (1/2) [] []).riskLevel
      = (analyzeLocationRiskCore zeroDist [] [] [] [] sampleLoc (1/2) [] []).riskLevel
    ∧ (analyzeLocationRiskCore zeroDist [] [] [] [] sampleLoc (1/2) [] []).riskFactors
      = (analyzeLocationRiskCore zeroDist [] [] [] [] sampleLoc (1/2) [] []).riskFactors :=
  risk_scorer_deterministic zeroDist [] [] [] [] sampleLoc (1/2) (1/2) [] [] [] [] rfl rfl rfl

/-- One record step applied to the last-100 suffix yields the last-100 suffix
of the extended arrival sequence. -/
lemma trackRecord_suffix (s : List LocationData) (e : LocationData) :
    trackRecord (s.drop (s.length - 100)) e = (s ++ [e]).drop (s.length + 1 - 100) := by
  unfold trackRecord
  rcases le_or_lt s.length 100 with h | h
  · have hz : s.length - 100 = 0 := by omega
    rw [hz, List.drop_zero]
    rcases eq_or_lt_of_le h with h100 | hlt
    · rw [if_pos (by simp [← h100])]
      simp [← h100]
    · rw [if_neg (by simp; omega)]
      have : s.length + 1 - 100 = 0 := by omega
      rw [this, List.drop_zero]
  · have hlen : (s.drop (s.length - 100)).length = 100 := by simp; omega
    rw [if_pos (by simp [hlen])]
    have h1 : (s.drop (s.length - 100) ++ [e]).length - 100 = 1 := by simp [hlen]
    rw [h1, List.drop_append_of_le_length (by omega : 1 ≤ (s.drop (s.length - 100)).length),
      List.drop_drop, List.drop_append_of_le_length (by omega : s.length + 1 - 100 ≤ s.length)]
    have h2 : s.length - 100 + 1 = s.length + 1 - 100 := by omega
    rw [h2]

/-- **C3.** After any sequence of record operations the subject's history is
exactly the last-100 suffix of the arrival sequence: it never exceeds 100
entries, the oldest entries are evicted first, and the survivors keep their
FIFO arrival order. -/
theorem history_capped_fifo (events : List LocationData) :
    events.foldl trackRecord [] = events.drop (events.length - 100)
    ∧ (events.foldl trackRecord []).length ≤ 100 := by
  have main : events.foldl trackRecord [] = events.drop (events.length - 100) := by
    induction events using List.reverseRecOn with
    | nil => rfl
    | append_singleton es e ih =>
      rw [List.foldl_append, List.foldl_cons, List.foldl_nil, ih, trackRecord_suffix]
      simp
  refine ⟨main, ?_⟩
  rw [main, List.length_drop]
  omega

/-- **C4.** Movement analysis needs at least 3 history points before it
computes speeds — with fewer it returns the `insufficient_data` dict — and
`MovementPatternAnalyzer.analyze_user_pattern` needs at least 5 points for
pattern classification — with fewer its pattern type is `insufficient_data`. -/
theorem movement_insufficient_data_thresholds :
    (∀ (dist : Dist) (atmCfg : List (ℚ × ℚ)) (hist : List LocationData),
      hist.length < 3 →
      analyzeMovementPatterns dist atmCfg hist
        = { status := some "insufficient_data", patternType := "unknown",
            riskScore := 0, anomalies := [], movementStats := none })
    ∧ (∀ (dist : Dist) (clusterDetect : List (ℚ × ℚ) → Bool) (userId : String)
        (locs : List LocationData), locs.length < 5 →
      (analyzeUserPattern dist clusterDetect userId locs).patternType
        = "insufficient_data"
      ∧ (analyzeUserPattern dist clusterDetect userId locs).riskScore = 0
      ∧ (analyzeUserPattern dist clusterDetect userId locs).anomalyIndicators = []) := by
  constructor
  · intro dist atmCfg hist h
    unfold analyzeMovementPatterns
    rw [if_pos h]
  · intro dist clusterDetect userId locs h
    unfold analyzeUserPattern
    rw [if_pos h]
    exact ⟨rfl, rfl, rfl⟩

/-- Witness for C4: a 2-point history and a 4-point window are both refused. -/
theorem movement_insufficient_data_thresholds_witness :
    ([sampleLoc, sampleLoc] : List LocationData).length < 3
    ∧ analyzeMovementPatterns zeroDist [] [sampleLoc, sampleLoc]
      = { status := some "insufficient_data", patternType := "unknown",
          riskScore := 0, anomalies := [], movementStats := none }
    ∧ ([sampleLoc, sampleLoc, sampleLoc, sampleLoc] : List LocationData).length < 5
    ∧ (analyzeUserPattern zeroDist (fun _ => true) "u1"
        [sampleLoc, sampleLoc, sampleLoc, sampleLoc]).patternType = "insufficient_data" :=
  ⟨by norm_num,
   movement_insufficient_data_thresholds.1 zeroDist [] [sampleLoc, sampleLoc] (by norm_num),
   by norm_num,
   (movement_insufficient_data_thresholds.2 zeroDist (fun _ => true) "u1"
     [sampleLoc, sampleLoc, sampleLoc, sampleLoc] (by norm_num)).1⟩

/-- **C8.** For every ingested event the caller receives the complete
aggregate with an assessment carrying a score in `[0, 100]`: either the full
successful assessment, or — when a collaborator lookup fails — the degraded
low-confidence assessment (`risk_score = 0`, `risk_level = 'unknown'`), never
a bare error-only result. -/
theorem track_always_complete_assessment (dist : Dist)
    (incOf : Geofence → List GIncident) (now : ℤ) (fences : List Geofence)
    (atmCfg : List (ℚ × ℚ)) (bankCfg techCfg : List (ℚ × ℚ × ℚ))
    (atmHotspots : List AtmHotspot) (cd : Except String ℚ)
    (nf : Except String (List NearbyFraud)) (cu : Except String (List String))
    (hist : List LocationData) (loc : LocationData) :
    ((∃ r, (trackUserLocation dist incOf now fences atmCfg bankCfg techCfg
        atmHotspots cd nf cu hist loc).2.riskAnalysis = RiskOutcome.ok r)
      ∨ (∃ m, (trackUserLocation dist incOf now fences atmCfg bankCfg techCfg
        atmHotspots cd nf cu hist loc).2.riskAnalysis = RiskOutcome.degraded 0 "unknown" m))
    ∧ 0 ≤ (trackUserLocation dist incOf now fences atmCfg bankCfg techCfg
        atmHotspots cd nf cu hist loc).2.riskAnalysis.riskScore
    ∧ (trackUserLocation dist incOf now fences atmCfg bankCfg techCfg
        atmHotspots cd nf cu hist loc).2.riskAnalysis.riskScore ≤ 100 := by
  have hres : (trackUserLocation dist incOf now fences atmCfg bankCfg techCfg
      atmHotspots cd nf cu hist loc).2.riskAnalysis
      = analyzeLocationRisk dist atmCfg bankCfg techCfg (trackRecord hist loc) loc cd nf cu := rfl
  rw [hres]
  rcases cd with m | d
  · exact ⟨Or.inr ⟨m, rfl⟩, le_refl 0, by norm_num [analyzeLocationRisk, RiskOutcome.riskScore]⟩
  rcases nf with m | nfv
  · exact ⟨Or.inr ⟨m, rfl⟩, le_refl 0, by norm_num [analyzeLocationRisk, RiskOutcome.riskScore]⟩
  rcases cu with m | cuv
  · exact ⟨Or.inr ⟨m, rfl⟩, le_refl 0, by norm_num [analyzeLocationRisk, RiskOutcome.riskScore]⟩
  obtain ⟨h0, h1⟩ := riskCore_score_bounds dist atmCfg bankCfg techCfg
    (trackRecord hist loc) loc d nfv cuv
  exact ⟨Or.inl ⟨_, rfl⟩, h0, h1⟩

/-! ## Aggregator claims -/

/-- A sample aggregator incident placed in Delhi / Connaught Place. -/
def delhiIncident (n : String) : Incident :=
  ⟨n, 10, "UPI Fraud", 0, ⟨"Delhi", "Connaught Place", 0, 0⟩⟩

/-- **C5 (counterexample).** Three incidents in one area do *not* yield a
predicted incident count of `round(3 × 1.5) = 5`: Python's `int()` truncates,
so the stored prediction is 4. -/
theorem hotspot_prediction_three_is_four_not_five :
    predictHotspots [delhiIncident "a", delhiIncident "b", delhiIncident "c"]
      = [{ city := "Delhi", predictedIncidents := 4, confidence := 3/5,
           riskLevel := "high" }]
    ∧ (4 : ℤ) ≠ 5 := by
  constructor
  · show List.insertionSort _ _ = _
    norm_num [predictHotspots, cityCounts, bumpKey, delhiIncident, hotspotOf,
      List.insertionSort, Int.floor_eq_iff]
  · decide

/-- **C5 (amended).** Each area with at least 2 incidents in the window yields
a hotspot prediction whose predicted incident count is the *truncation*
`int(observed × 1.5)` (so 3 incidents give 4, not 5) and whose confidence is
`min(0.9, observed × 0.2)`. -/
theorem hotspot_prediction_formula (incs : List Incident) (city : String)
    (count : ℕ) (hmem : (city, count) ∈ cityCounts incs) (h2 : 2 ≤ count) :
    ({ city := city,
       predictedIncidents := ⌊(count : ℚ) * (3/2)⌋,
       confidence := min (9/10) ((count : ℚ) * (2/10)),
       riskLevel := if 3 < (count : ℚ) * (3/2) then "high" else "medium" }
      : HotspotPred) ∈ predictHotspots incs := by
  unfold predictHotspots
  rw [List.mem_insertionSort]
  exact List.mem_map.mpr ⟨(city, count),
    List.mem_filter.mpr ⟨hmem, by simpa using h2⟩, rfl⟩

/-- Witness for the amended C5 at the concrete three-incident Delhi burst. -/
theorem hotspot_prediction_formula_witness :
    ("Delhi", 3) ∈ cityCounts [delhiIncident "a", delhiIncident "b", delhiIncident "c"]
    ∧ (2 ≤ 3)
    ∧ ({ city := "Delhi", predictedIncidents := 4, confidence := 3/5,
         riskLevel := "high" } : HotspotPred)
      ∈ predictHotspots [delhiIncident "a", delhiIncident "b", delhiIncident "c"] := by
  have hmem : ("Delhi", 3)
      ∈ cityCounts [delhiIncident "a", delhiIncident "b", delhiIncident "c"] := by
    norm_num [cityCounts, bumpKey, delhiIncident]
  refine ⟨hmem, by norm_num, ?_⟩
  have h := hotspot_prediction_formula
    [delhiIncident "a", delhiIncident "b", delhiIncident "c"] "Delhi" 3 hmem (by norm_num)
  convert h using 2 <;> norm_num [Int.floor_eq_iff]

/-- A cache snapshot left over from an earlier cycle. -/
def staleCache : PredictionCache :=
  { hotspots := [{ city := "OldCity", predictedIncidents := 9, confidence := 9/10,
                   riskLevel := "high" }],
    trends := [], riskAreas := [], lastUpdate := 0 }

/-- An incident older than the one-hour aggregation window. -/
def oldIncident : Incident := ⟨"old", 0, "Phishing", 100, ⟨"X", "Y", 0, 0⟩⟩

/-- **C6 (counterexample).** On a cycle whose recent-incident window is empty
(here: the only queued incident is older than one hour), the prediction cache
is *not* replaced and `last_update` is *not* set to the cycle time: the whole
stale snapshot survives. -/
theorem cache_survives_empty_window :
    processCycle staleCache [oldIncident] 7200 = staleCache
    ∧ staleCache.hotspots ≠ []
    ∧ staleCache.lastUpdate ≠ 7200 := by
  refine ⟨?_, by simp [staleCache], by norm_num [staleCache]⟩
  show updatePredictions _ _ _ = _
  norm_num [recentIncidents, oldIncident, updatePredictions]

/-- **C6 (amended).** On every aggregation cycle whose recent-incident window
is non-empty, the cache contents (hotspots, trends, risk areas) are entirely
recomputed from that window alone — independent of the previous snapshot —
and `last_update` is set to the cycle time; on a cycle with an empty window
the previous snapshot survives unchanged. -/
theorem cache_replaced_on_nonempty_window (cache : PredictionCache)
    (recent : List Incident) (now : ℚ) (h : recent ≠ []) :
    updatePredictions cache recent now
      = { hotspots := predictHotspots recent, trends := predictTrends recent,
          riskAreas := identifyRiskAreas recent, lastUpdate := now } := by
  unfold updatePredictions
  rw [if_neg (by simpa [List.isEmpty_iff] using h)]

/-- Witness for the amended C6: a concrete non-empty window fully replaces the
stale snapshot. -/
theorem cache_replaced_on_nonempty_window_witness :
    ([delhiIncident "w"] : List Incident) ≠ []
    ∧ updatePredictions staleCache [delhiIncident "w"] 7200
      = { hotspots := predictHotspots [delhiIncident "w"],
          trends := predictTrends [delhiIncident "w"],
          riskAreas := identifyRiskAreas [delhiIncident "w"],
          lastUpdate := 7200 } :=
  ⟨by simp, cache_replaced_on_nonempty_window staleCache [delhiIncident "w"] 7200 (by simp)⟩

/-- **C10.** Every entry the aggregator places in the `risk_areas` ranking has
`risk_score` exactly 1: an area is included only when its raw composite
exceeds 1.0 and the stored score is `min(raw, 1.0)`, so the descending sort
compares equal keys for all included areas. -/
theorem risk_area_scores_all_one (incs : List Incident) (r : RiskArea)
    (hr : r ∈ identifyRiskAreas incs) : r.riskScore = 1 := by
  unfold identifyRiskAreas at hr
  rw [List.mem_insertionSort] at hr
  obtain ⟨p, -, hp⟩ := List.mem_filterMap.mp hr
  by_cases h : 1 < areaRawScore p.2
  · rw [if_pos h] at hp
    obtain ⟨rfl⟩ := Option.some.inj hp
    exact min_eq_right h.le
  · rw [if_neg h] at hp
    exact absurd hp (by simp)

/-- A sample incident for the C10 witness (two of these in one area give raw
composite `2 × 0.6 = 1.2 > 1`). -/
def riskInc (n : String) : Incident := ⟨n, 10, "UPI Fraud", 0, ⟨"C", "A", 0, 0⟩⟩

/-- The ranked entry produced by the two `riskInc` incidents. -/
def sampleRiskArea : RiskArea := ⟨"C-A", 1, 2, 0, ⟨"C", "A", 0, 0⟩⟩

/-- Witness for C10: the concrete two-incident area is ranked and its stored
score is exactly 1. -/
theorem risk_area_scores_all_one_witness :
    sampleRiskArea ∈ identifyRiskAreas [riskInc "a", riskInc "b"]
    ∧ sampleRiskArea.riskScore = 1 := by
  have hmem : sampleRiskArea ∈ identifyRiskAreas [riskInc "a", riskInc "b"] := by
    show _ ∈ List.insertionSort _ _
    norm_num [identifyRiskAreas, areaAggs, bumpArea, riskInc, areaRawScore,
      List.insertionSort, sampleRiskArea]
    decide
  exact ⟨hmem, risk_area_scores_all_one [riskInc "a", riskInc "b"] _ hmem⟩

/-! ## Circular-movement claim -/

/-- **C7.** Whenever the circular-movement detector fires on the last 10
history points (all within 0.5 km of their centroid with cumulative path over
500 m) — which is possible with only 8 points, since the detector accepts any
window of at least 4 — the movement analysis (given enough points to compute
speeds) reports the circular-movement indicator, escalates the pattern to
`high_risk`, and adds exactly +30 to the movement risk accumulator. -/
theorem circular_movement_escalates (dist : Dist) (atmCfg : List (ℚ × ℚ))
    (hist : List LocationData) (h3 : 3 ≤ hist.length)
    (hs : speedsOf dist hist ≠ [])
    (hc : circularFlag dist hist = true) :
    (analyzeMovementPatterns dist atmCfg hist).patternType = "high_risk"
    ∧ "Circular movement pattern detected"
      ∈ (analyzeMovementPatterns dist atmCfg hist).anomalies
    ∧ (analyzeMovementPatterns dist atmCfg hist).riskScore
      = min ((if speedFlag dist hist then (40 : ℚ) else 0)
          + (if erraticFlag dist hist then 20 else 0) + 30
          + (if loiterFlag dist atmCfg hist then 35 else 0)) 100 := by
  unfold analyzeMovementPatterns
  rw [if_neg (by omega), if_neg (by simp [hs])]
  refine ⟨?_, ?_, ?_⟩
  · cases h4 : loiterFlag dist atmCfg hist <;> simp [h4, hc]
  · simp [hc]
  · simp [hc]

/-- A point of the concrete casing path (fixed latitude 0, varying longitude,
one reading per second). -/
def circleLoc (lng t : ℚ) : LocationData :=
  { userId := "u", latitude := 0, longitude := lng, timestamp := ⟨t, 12⟩,
    accuracy := 10, deviceId := "d", appSource := "mobile_banking",
    sessionId := "s" }

/-- Eight readings oscillating 100 m apart (under `taxiDist`): all within
50 m of their centroid, with a 700 m cumulative path. -/
def circlePath : List LocationData :=
  [circleLoc 0 0, circleLoc (1/10) 1, circleLoc 0 2, circleLoc (1/10) 3,
   circleLoc 0 4, circleLoc (1/10) 5, circleLoc 0 6, circleLoc (1/10) 7]

/-- Witness for C7: the 8-point casing path triggers the circular-movement
indicator and the `high_risk` escalation. -/
theorem circular_movement_escalates_witness :
    3 ≤ circlePath.length
    ∧ speedsOf taxiDist circlePath ≠ []
    ∧ circularFlag taxiDist circlePath = true
    ∧ (analyzeMovementPatterns taxiDist [] circlePath).patternType = "high_risk"
    ∧ "Circular movement pattern detected"
      ∈ (analyzeMovementPatterns taxiDist [] circlePath).anomalies := by
  have h3 : 3 ≤ circlePath.length := by norm_num [circlePath]
  have hs : speedsOf taxiDist circlePath ≠ [] := by
    norm_num [speedsOf, stepPairs, circlePath, circleLoc, taxiDist, abs_of_nonneg]
    simp
  have hc : circularFlag taxiDist circlePath = true := by
    norm_num [circularFlag, lastN, detectCircularMovement, circlePath, circleLoc,
      taxiDist, pathLength, abs_of_nonneg]
  obtain ⟨ha, hb, -⟩ := circular_movement_escalates taxiDist [] circlePath h3 hs hc
  exact ⟨h3, hs, hc, ha, hb⟩

end CyberSentinel

